import Mathlib

/-!
Verification of the bitshare mockup servers (`mockup/server.py`, variant A,
and `mockup/simple-server.py`, variant B).

The two scripts are shallowly embedded: request handling becomes a pure
function from a filesystem model and a request path to a `Response`, and the
startup / shutdown control flow becomes a pure function from the environment
outcomes (bind errors per port, browser-launch failure, operator interrupt)
to a `RunResult` recording the printed lines, the exit status and the port
being served.  The Python standard library's `SimpleHTTPRequestHandler` and
`send_error` are external collaborators of the scripts; they are modelled
from the specification's description of them (each such definition says so
in its doc comment).  File contents are modelled as strings standing for the
files' bytes; filesystems are flat association lists from relative paths to
contents (the mockup directory is a flat directory of files).
-/

namespace Bitshare

/-- A directory of files: each entry maps a path, relative to that
directory, to the file's content (a string standing for the bytes). -/
abbrev FS := List (String × String)

/-- An HTTP response: status code, reason phrase, header list and body. -/
structure Response where
  status : Nat
  reason : String
  headers : List (String × String)
  body : String
deriving DecidableEq

/-- The run of one script: the lines it printed, its exit status
(`none` while it is still running), and the port it is serving on
(`none` if it never reached `serve_forever` or already stopped). -/
structure RunResult where
  exitCode : Option Nat
  servingPort : Option Nat
  output : List String
deriving DecidableEq

/-- Python `s.lstrip('/')`: drop every leading slash (used by the
existence check `os.path.exists(self.path.lstrip('/'))`). -/
def lstripSlash (s : String) : String := ⟨s.data.dropWhile (· == '/')⟩

/-- The stock handler's `translate_path` drops the query
(`path.split('?',1)[0]`) and the fragment (`path.split('#',1)[0]`)
before resolving the path against the serving directory. -/
def stripQuery (s : String) : String :=
  ⟨s.data.takeWhile (fun c => c != '?' && c != '#')⟩

/-- Substring occurrence test on character lists (used to state that a
printed diagnostic mentions the port number). -/
def hasSubstr (hay needle : List Char) : Bool :=
  match hay with
  | [] => needle.isEmpty
  | c :: t => needle.isPrefixOf (c :: t) || hasSubstr t needle

/-- Predicate `mentions line sub`: holds when `sub` occurs inside `line`. -/
def mentions (line sub : String) : Bool := hasSubstr line.data sub.data

/-- Modelled from the spec: the standard header block the generic
static-file responder emits on every response ("Content-Type,
Content-Length, Date, etc."); the three security headers are *not*
among them — they are added only by variant A's `end_headers`. -/
def baseHeaders (body : String) : List (String × String) :=
  [("Content-Type", "text/html"), ("Content-Length", toString body.length)]

/-- Modelled from the spec: `send_error(code, msg)` of the underlying HTTP
facility finalizes a response of that status through the handler's
`end_headers` hook, with the plain message as the body. -/
def sendError (endH : List (String × String) → List (String × String))
    (code : Nat) (msg : String) : Response :=
  { status := code, reason := msg, headers := endH (baseHeaders msg), body := msg }

/-- Modelled from the spec: the generic static-file responder (external
collaborator).  Given the serving directory and the request path resolved
relative to it, it streams the file's exact bytes with status 200 when the
file exists, and otherwise answers 404 "File not found" (the stock
`SimpleHTTPRequestHandler.send_head` behaviour).  Every response is
finalized through the handler's `end_headers` hook. -/
def serveStatic (endH : List (String × String) → List (String × String))
    (dir : FS) (rel : String) : Response :=
  match dir.lookup rel with
  | some content =>
      { status := 200, reason := "OK", headers := endH (baseHeaders content),
        body := content }
  | none => sendError endH 404 "File not found"

namespace Server

/-- The three security headers added by `BitShareHandler.end_headers`
(server.py lines 20-22). -/
def securityHeaders : List (String × String) :=
  [("X-Frame-Options", "DENY"),
   ("X-Content-Type-Options", "nosniff"),
   ("Referrer-Policy", "no-referrer")]

/-- Model of `BitShareHandler.end_headers` (server.py lines 18-23): send the three
security headers, then finalize the header block as usual.  Every response
of the handler — success or error — is finalized through this hook. -/
def end_headers (hs : List (String × String)) : List (String × String) :=
  hs ++ securityHeaders

/-- The two directories a variant-A request is resolved against:
`cwd` is the process's current working directory (the base of the
relative `os.path.exists` check in `do_GET`), and `root` is the script's
own directory, `Path(__file__).parent`, which `BitShareHandler.__init__`
passes as `directory=` and which the inherited `do_GET` serves from. -/
structure ServerFS where
  cwd : FS
  root : FS
deriving DecidableEq

/-- Lines 27-28 of server.py: a request for `/` is rewritten to
`/index.html` before anything else. -/
def requestTarget (path : String) : String :=
  if path = "/" then "/index.html" else path

/-- Model of `BitShareHandler.do_GET` (server.py lines 25-35): rewrite `/` to
`/index.html`; then check `os.path.exists(self.path.lstrip('/'))` — a
relative path, hence resolved against the process CWD — and answer
`send_error(404, "File not found")` when it fails; otherwise delegate to
the inherited `SimpleHTTPRequestHandler.do_GET`, which serves the
query-stripped path relative to the handler's `directory` (the script
directory, `root`). -/
def do_GET (s : ServerFS) (path : String) : Response :=
  if (s.cwd.lookup (lstripSlash (requestTarget path))).isSome then
    serveStatic end_headers s.root (lstripSlash (stripQuery (requestTarget path)))
  else sendError end_headers 404 "File not found"

/-- The startup banner printed by `main` after a successful bind
(server.py lines 47-59); `PORT` is the constant 8000. -/
def banner : List String :=
  ["🚀 bitshare mockup server starting...",
   "📡 Server running at: http://localhost:8000",
   "🌐 Open in browser: http://localhost:8000",
   "🔧 Press Ctrl+C to stop the server",
   "",
   "Features:",
   "• Terminal-style interface with green theme",
   "• Drag & drop file transfer simulation",
   "• Noise Protocol security indicators",
   "• Transport switching (Bluetooth ↔ WiFi Direct)",
   "• Real-time peer connections",
   "• Interactive debug console",
   ""]

/-- The demo instructions printed after the browser attempt
(server.py lines 68-76). -/
def demoText : List String :=
  ["",
   "🎯 Demo Instructions:",
   "• Click or drag files to the drop zone",
   "• Watch real-time file transfer progress",
   "• Switch between transport modes",
   "• Open settings panel (gear icon)",
   "• Toggle debug console (Cmd/Ctrl+K)",
   "• View peer connections at bottom",
   ""]

/-- Model of `main` of server.py (lines 41-92), as a function of the environment:
`bindErr p` is the errno of the `OSError` raised when binding port `p`
(`none` when the bind succeeds), `errStr` is `str(e)` for that error,
`browserFails` tells whether `webbrowser.open` raises, and `interrupted`
tells whether the operator interrupts the running server.  On a bind
error with errno 48 (`# Port already in use`) or otherwise, the script
prints its diagnostic and calls `sys.exit(1)`; on success it prints the
banner, attempts the browser (a bare `except` prints the manual
instruction), prints the demo text and serves; `serve_forever` only ends
by `KeyboardInterrupt`, caught in `main`, which prints a stop message
and calls `sys.exit(0)`. -/
def main (bindErr : Nat → Option Nat) (errStr : String)
    (browserFails : Bool) (interrupted : Bool) : RunResult :=
  match bindErr 8000 with
  | some e =>
      if e = 48 then
        { exitCode := some 1, servingPort := none,
          output := ["❌ Port 8000 is already in use",
                     "💡 Try: lsof -ti:8000 | xargs kill",
                     "   Or use a different port: python server.py --port XXXX"] }
      else
        { exitCode := some 1, servingPort := none,
          output := ["❌ Error starting server: " ++ errStr] }
  | none =>
      let browserLine :=
        if browserFails then "⚠️  Please manually open http://localhost:8000 in your browser"
        else "✅ Browser opened automatically"
      let out := banner ++ [browserLine] ++ demoText
      if interrupted then
        { exitCode := some 0, servingPort := none,
          output := out ++ ["", "🛑 Server stopped"] }
      else
        { exitCode := none, servingPort := some 8000, output := out }

end Server

namespace SimpleServer

/-- Line 113 of simple-server.py: `range(8000, 8010)`, the candidate ports. -/
def portRange : List Nat := List.range' 8000 10

/-- The scan loop of `start_server` (lines 113-128): try to bind each
candidate in turn; any `OSError` means `continue` with the next port;
the first successful bind is kept. -/
def scanPorts (bindErr : Nat → Option Nat) : List Nat → Option Nat
  | [] => none
  | p :: ps => if (bindErr p).isNone then some p else scanPorts bindErr ps

/-- The lines printed once a bind on `p` succeeds (lines 116-118). -/
def serveOutput (p : Nat) : List String :=
  ["🚀 bitshare mockup server running at: http://localhost:" ++ toString p,
   "📱 Open this URL in your browser: http://localhost:" ++ toString p,
   "🔧 Press Ctrl+C to stop"]

/-- Model of `start_server` of simple-server.py together with its `__main__`
wrapper (lines 106-138), as a function of the environment: `bindErr p`
is the errno of the `OSError` raised when binding port `p` (`none` on
success) — the loop's `except OSError: continue` ignores which errno it
is; `browserFails` tells whether `webbrowser.open` raises (its handler
is `except: pass`, so it never changes the output); `interrupted` tells
whether the operator interrupts the running server (`KeyboardInterrupt`
is not caught by `except OSError`, so it propagates to the `__main__`
wrapper, which prints a stop message and calls `sys.exit(0)`).  When
every candidate port fails, the loop falls through to print an error and
call `sys.exit(1)`. -/
def run (bindErr : Nat → Option Nat) (browserFails : Bool)
    (interrupted : Bool) : RunResult :=
  match scanPorts bindErr portRange with
  | some p =>
      if interrupted then
        { exitCode := some 0, servingPort := none,
          output := serveOutput p ++ ["", "🛑 Server stopped"] }
      else
        { exitCode := none, servingPort := some p, output := serveOutput p }
  | none =>
      { exitCode := some 1, servingPort := none,
        output := ["❌ No available ports found"] }

/-- Request handling in variant B: the stock `SimpleHTTPRequestHandler`
with no customization, serving from the script directory (`os.chdir` on
line 110 makes it the CWD).  Modelled from the spec: the stock handler
is the generic static-file responder with an identity `end_headers`
hook — it adds no security headers. -/
def serveRequest (dir : FS) (path : String) : Response :=
  serveStatic (fun hs => hs) dir (lstripSlash (stripQuery path))

end SimpleServer

end Bitshare

namespace Bitshare

/-! ### Helper lemmas -/

/-- Every variant-A response carries the three security headers as a
suffix of its header block, whichever branch of `do_GET` produced it. -/
theorem do_GET_headers_shape (s : Server.ServerFS) (p : String) :
    ∃ hs, (Server.do_GET s p).headers = hs ++ Server.securityHeaders := by
  unfold Server.do_GET
  by_cases hc : (s.cwd.lookup (lstripSlash (Server.requestTarget p))).isSome = true
  · rw [if_pos hc]
    unfold serveStatic
    cases hr : s.root.lookup (lstripSlash (stripQuery (Server.requestTarget p))) with
    | none => exact ⟨baseHeaders "File not found", rfl⟩
    | some c => exact ⟨baseHeaders c, rfl⟩
  · rw [if_neg hc]
    exact ⟨baseHeaders "File not found", rfl⟩

/-- Every variant-B response carries exactly the standard header block of
the stock static-file responder. -/
theorem serveRequest_headers_shape (fs : FS) (q : String) :
    ∃ x, (SimpleServer.serveRequest fs q).headers = baseHeaders x := by
  unfold SimpleServer.serveRequest serveStatic
  cases hr : fs.lookup (lstripSlash (stripQuery q)) with
  | none => exact ⟨"File not found", rfl⟩
  | some c => exact ⟨c, rfl⟩

/-- A header whose name is neither `Content-Type` nor `Content-Length`
does not occur in the standard header block. -/
theorem not_mem_baseHeaders (h : String × String) (x : String)
    (h1 : h.1 ≠ "Content-Type") (h2 : h.1 ≠ "Content-Length") :
    h ∉ baseHeaders x := by
  intro hm
  rcases List.mem_cons.mp hm with he | hm2
  · exact h1 (by rw [he])
  · rcases List.mem_cons.mp hm2 with he | hm3
    · exact h2 (by rw [he])
    · simp at hm3

end Bitshare

namespace Bitshare

/-- A successful scan splits the candidate list into failing ports, the
first succeeding port, and the untried rest. -/
theorem scanPorts_decomp (be : Nat → Option Nat) :
    ∀ (l : List Nat) (p : Nat), SimpleServer.scanPorts be l = some p →
      ∃ l1 l2, l = l1 ++ p :: l2 ∧ be p = none ∧ ∀ q ∈ l1, (be q).isSome := by
  intro l
  induction l with
  | nil => intro p h; simp [SimpleServer.scanPorts] at h
  | cons a t ih =>
    intro p h
    unfold SimpleServer.scanPorts at h
    by_cases ha : (be a).isNone = true
    · rw [if_pos ha] at h
      obtain rfl : a = p := Option.some.inj h
      exact ⟨[], t, rfl, Option.isNone_iff_eq_none.mp ha, by intro q hq; cases hq⟩
    · rw [if_neg ha] at h
      obtain ⟨l1, l2, hl, hb, hf⟩ := ih p h
      refine ⟨a :: l1, l2, by rw [hl]; rfl, hb, ?_⟩
      intro q hq
      rcases List.mem_cons.mp hq with rfl | hq2
      · cases hqa : be q with
        | none => rw [hqa] at ha; exact absurd rfl ha
        | some v => rfl
      · exact hf q hq2

/-- When every candidate port fails to bind, the scan finds nothing. -/
theorem scanPorts_none (be : Nat → Option Nat) :
    ∀ l : List Nat, (∀ q ∈ l, (be q).isSome) → SimpleServer.scanPorts be l = none := by
  intro l
  induction l with
  | nil => intro _; rfl
  | cons a t ih =>
    intro h
    unfold SimpleServer.scanPorts
    have ha : (be a).isSome = true := h a (List.mem_cons_self a t)
    have hna : ¬((be a).isNone = true) := by
      cases hba : be a with
      | none => rw [hba] at ha; exact absurd ha (by decide)
      | some v => simp
    rw [if_neg hna]
    exact ih fun q hq => h q (List.mem_cons_of_mem a hq)

/-- Shape of a variant-B run that binds port `p` and is then interrupted. -/
theorem run_interrupted (bq : Nat → Option Nat) (bf : Bool) (p : Nat)
    (h : SimpleServer.scanPorts bq SimpleServer.portRange = some p) :
    SimpleServer.run bq bf true =
      { exitCode := some 0, servingPort := none,
        output := SimpleServer.serveOutput p ++ ["", "🛑 Server stopped"] } := by
  unfold SimpleServer.run; rw [h]; rfl

/-- Shape of a variant-B run that binds port `p` and keeps serving. -/
theorem run_serving (bq : Nat → Option Nat) (bf : Bool) (p : Nat)
    (h : SimpleServer.scanPorts bq SimpleServer.portRange = some p) :
    SimpleServer.run bq bf false =
      { exitCode := none, servingPort := some p,
        output := SimpleServer.serveOutput p } := by
  unfold SimpleServer.run; rw [h]; rfl

/-- Shape of a variant-B run on which every candidate port fails. -/
theorem run_exhausted (bq : Nat → Option Nat) (bf itr : Bool)
    (h : ∀ q ∈ SimpleServer.portRange, (bq q).isSome) :
    SimpleServer.run bq bf itr =
      { exitCode := some 1, servingPort := none,
        output := ["❌ No available ports found"] } := by
  unfold SimpleServer.run; rw [scanPorts_none bq _ h]

/-- Shape of a variant-A run whose bind fails with errno 48. -/
theorem main_port_in_use (be : Nat → Option Nat) (errStr : String) (bf itr : Bool)
    (h : be 8000 = some 48) :
    Server.main be errStr bf itr =
      { exitCode := some 1, servingPort := none,
        output := ["❌ Port 8000 is already in use",
                   "💡 Try: lsof -ti:8000 | xargs kill",
                   "   Or use a different port: python server.py --port XXXX"] } := by
  unfold Server.main; rw [h]; rfl

/-- Shape of a variant-A run whose bind fails with an errno other than 48. -/
theorem main_bind_failed_other (be : Nat → Option Nat) (errStr : String) (bf itr : Bool)
    (e : Nat) (h : be 8000 = some e) (hne : e ≠ 48) :
    Server.main be errStr bf itr =
      { exitCode := some 1, servingPort := none,
        output := ["❌ Error starting server: " ++ errStr] } := by
  unfold Server.main
  rw [h]
  show (if e = 48 then
      ({ exitCode := some 1, servingPort := none,
         output := ["❌ Port 8000 is already in use",
                    "💡 Try: lsof -ti:8000 | xargs kill",
                    "   Or use a different port: python server.py --port XXXX"] } : RunResult)
    else
      { exitCode := some 1, servingPort := none,
        output := ["❌ Error starting server: " ++ errStr] }) = _
  rw [if_neg hne]

/-- Shape of a variant-A run that binds and is then interrupted. -/
theorem main_interrupted (be : Nat → Option Nat) (errStr : String) (bf : Bool)
    (hA : be 8000 = none) :
    Server.main be errStr bf true =
      { exitCode := some 0, servingPort := none,
        output := (Server.banner
          ++ [if bf then "⚠️  Please manually open http://localhost:8000 in your browser"
              else "✅ Browser opened automatically"]
          ++ Server.demoText) ++ ["", "🛑 Server stopped"] } := by
  unfold Server.main; rw [hA]; rfl

/-- Shape of a variant-A run that binds and keeps serving. -/
theorem main_serving (be : Nat → Option Nat) (errStr : String) (bf : Bool)
    (hA : be 8000 = none) :
    Server.main be errStr bf false =
      { exitCode := none, servingPort := some 8000,
        output := Server.banner
          ++ [if bf then "⚠️  Please manually open http://localhost:8000 in your browser"
              else "✅ Browser opened automatically"]
          ++ Server.demoText } := by
  unfold Server.main; rw [hA]; rfl

end Bitshare

namespace Bitshare

/-! ### Claim theorems: request handling -/

/-- C1 (counterexample): the claim fails for variant B.  The stock
handler used by simple-server.py answers a GET for an existing
`index.html` without the `X-Frame-Options: DENY` header. -/
theorem simple_server_response_lacks_security_header :
    ("X-Frame-Options", "DENY") ∉
      (SimpleServer.serveRequest [("index.html", "<html>bitshare</html>")]
        "/index.html").headers := by decide

/-- C1 (amended): every response of variant A (server.py) carries the
three security headers `X-Frame-Options: DENY`,
`X-Content-Type-Options: nosniff` and `Referrer-Policy: no-referrer`,
whatever the request path and whatever the filesystem; variant B
(simple-server.py) never adds any of them — its responses carry only
the standard static-responder headers. -/
theorem security_headers_only_variantA (s : Server.ServerFS) (p : String)
    (fs : FS) (q : String) :
    (("X-Frame-Options", "DENY") ∈ (Server.do_GET s p).headers
      ∧ ("X-Content-Type-Options", "nosniff") ∈ (Server.do_GET s p).headers
      ∧ ("Referrer-Policy", "no-referrer") ∈ (Server.do_GET s p).headers)
    ∧ (("X-Frame-Options", "DENY") ∉ (SimpleServer.serveRequest fs q).headers
      ∧ ("X-Content-Type-Options", "nosniff") ∉ (SimpleServer.serveRequest fs q).headers
      ∧ ("Referrer-Policy", "no-referrer") ∉ (SimpleServer.serveRequest fs q).headers) := by
  obtain ⟨hs, hA⟩ := do_GET_headers_shape s p
  obtain ⟨x, hB⟩ := serveRequest_headers_shape fs q
  rw [hA, hB]
  refine ⟨⟨?_, ?_, ?_⟩, ?_, ?_, ?_⟩
  · exact List.mem_append.mpr (Or.inr (by decide))
  · exact List.mem_append.mpr (Or.inr (by decide))
  · exact List.mem_append.mpr (Or.inr (by decide))
  · exact not_mem_baseHeaders _ x (by decide) (by decide)
  · exact not_mem_baseHeaders _ x (by decide) (by decide)
  · exact not_mem_baseHeaders _ x (by decide) (by decide)

/-- C1 (witness): the amended theorem applied at a concrete request of
each variant. -/
theorem security_headers_only_variantA_witness :
    ("X-Frame-Options", "DENY") ∈
      (Server.do_GET { cwd := [("index.html", "x")], root := [("index.html", "x")] }
        "/index.html").headers
    ∧ ("X-Frame-Options", "DENY") ∉
      (SimpleServer.serveRequest [("index.html", "x")] "/index.html").headers :=
  ⟨(security_headers_only_variantA
      { cwd := [("index.html", "x")], root := [("index.html", "x")] } "/index.html"
      [("index.html", "x")] "/index.html").1.1,
   (security_headers_only_variantA
      { cwd := [("index.html", "x")], root := [("index.html", "x")] } "/index.html"
      [("index.html", "x")] "/index.html").2.1⟩

/-- C2 (failing evaluation): `index.html` exists under the root (the
script's directory) but not under the process's current working
directory, and the GET for it answers 404 — the existence check
`os.path.exists(self.path.lstrip('/'))` resolves against the CWD while
serving resolves against the script directory, so the claimed 200 with
the file's bytes does not happen. -/
theorem cwd_relative_check_404_despite_root_file :
    ([("index.html", "<html>bitshare</html>")] : FS).lookup "index.html"
        = some "<html>bitshare</html>"
    ∧ (Server.do_GET
        { cwd := [], root := [("index.html", "<html>bitshare</html>")] }
        "/index.html").status = 404
    ∧ (Server.do_GET
        { cwd := [], root := [("index.html", "<html>bitshare</html>")] }
        "/index.html").body = "File not found" := by decide

/-- C2 (supporting): when the process is started from the script's own
directory (CWD = root) and the request path carries no query or
fragment, a GET for an existing file does answer 200 with the file's
exact content, as the claim states. -/
theorem do_GET_200_of_cwd_eq_root (fs : FS) (p : String) (c : String)
    (hnq : stripQuery (Server.requestTarget p) = Server.requestTarget p)
    (h : fs.lookup (lstripSlash (Server.requestTarget p)) = some c) :
    Server.do_GET { cwd := fs, root := fs } p =
      { status := 200, reason := "OK",
        headers := Server.end_headers (baseHeaders c), body := c } := by
  unfold Server.do_GET
  show (if (fs.lookup (lstripSlash (Server.requestTarget p))).isSome then
      serveStatic Server.end_headers fs (lstripSlash (stripQuery (Server.requestTarget p)))
    else sendError Server.end_headers 404 "File not found") = _
  rw [hnq, h]
  simp only [Option.isSome_some]
  rw [if_pos trivial]
  unfold serveStatic
  rw [h]

/-- C2 (supporting witness): the supporting theorem applied at a
concrete filesystem and path. -/
theorem do_GET_200_of_cwd_eq_root_witness :
    stripQuery (Server.requestTarget "/index.html") = Server.requestTarget "/index.html"
    ∧ ([("index.html", "x")] : FS).lookup
        (lstripSlash (Server.requestTarget "/index.html")) = some "x"
    ∧ Server.do_GET { cwd := [("index.html", "x")], root := [("index.html", "x")] }
        "/index.html" =
      { status := 200, reason := "OK",
        headers := Server.end_headers (baseHeaders "x"), body := "x" } :=
  ⟨by decide, by decide,
   do_GET_200_of_cwd_eq_root [("index.html", "x")] "/index.html" "x"
     (by decide) (by decide)⟩

/-- C3: a GET for a path that does not correspond to an existing file
under the root answers 404 with the plain body `File not found` (and
nothing else): whether the CWD-relative existence check fails, or it
passes and the static responder then misses the file under the root,
the resulting response is the same `send_error(404, "File not found")`
one, whose body is the fixed message, so no file content is included. -/
theorem missing_file_404 (s : Server.ServerFS) (p : String)
    (h : s.root.lookup (lstripSlash (stripQuery (Server.requestTarget p))) = none) :
    (Server.do_GET s p).status = 404
    ∧ (Server.do_GET s p).body = "File not found"
    ∧ (Server.do_GET s p).reason = "File not found" := by
  unfold Server.do_GET
  by_cases hc : (s.cwd.lookup (lstripSlash (Server.requestTarget p))).isSome = true
  · rw [if_pos hc]
    unfold serveStatic
    rw [h]
    exact ⟨rfl, rfl, rfl⟩
  · rw [if_neg hc]
    exact ⟨rfl, rfl, rfl⟩

/-- C3 (witness): the theorem applied to a GET for `/missing.txt`
against an empty root. -/
theorem missing_file_404_witness :
    (({ cwd := [], root := [] } : Server.ServerFS).root.lookup
        (lstripSlash (stripQuery (Server.requestTarget "/missing.txt"))) = none)
    ∧ ((Server.do_GET { cwd := [], root := [] } "/missing.txt").status = 404
      ∧ (Server.do_GET { cwd := [], root := [] } "/missing.txt").body = "File not found"
      ∧ (Server.do_GET { cwd := [], root := [] } "/missing.txt").reason = "File not found") :=
  ⟨by decide, missing_file_404 { cwd := [], root := [] } "/missing.txt" (by decide)⟩

/-- C4: a GET for `/` is handled identically to a GET for
`/index.html` — line 27-28 of server.py rewrite the path before any
other step, so the two requests take the very same path through
`do_GET` (the `index.html exists` assumption of the claim is not even
needed). -/
theorem root_request_equals_index_request (s : Server.ServerFS)
    (h : (s.root.lookup "index.html").isSome) :
    Server.do_GET s "/" = Server.do_GET s "/index.html" := rfl

/-- C4 (witness): the theorem applied at a root that does contain
`index.html`. -/
theorem root_request_equals_index_request_witness :
    ((({ cwd := [("index.html", "x")], root := [("index.html", "x")] } :
        Server.ServerFS).root.lookup "index.html").isSome = true)
    ∧ Server.do_GET { cwd := [("index.html", "x")], root := [("index.html", "x")] } "/"
      = Server.do_GET { cwd := [("index.html", "x")], root := [("index.html", "x")] }
          "/index.html" :=
  ⟨by decide,
   root_request_equals_index_request
     { cwd := [("index.html", "x")], root := [("index.html", "x")] } (by decide)⟩

/-- C10: when the request path carries a query string, the existence
check is applied to the raw path — query string included — so the
request answers 404 `File not found` even though the underlying file
(the path with the query stripped) exists under the root. -/
theorem query_string_always_404 (s : Server.ServerFS) (p : String) (c : String)
    (hq : mentions p "?" = true)
    (hcwd : s.cwd.lookup (lstripSlash (Server.requestTarget p)) = none)
    (hroot : s.root.lookup (lstripSlash (stripQuery (Server.requestTarget p))) = some c) :
    (Server.do_GET s p).status = 404
    ∧ (Server.do_GET s p).body = "File not found" := by
  unfold Server.do_GET
  rw [hcwd]
  rw [if_neg (by decide : ¬(((none : Option String).isSome) = true))]
  exact ⟨rfl, rfl⟩

/-- C10 (witness): the theorem applied to `GET /index.html?v=1` with
`index.html` present both under the CWD and under the root. -/
theorem query_string_always_404_witness :
    mentions "/index.html?v=1" "?" = true
    ∧ (({ cwd := [("index.html", "x")], root := [("index.html", "x")] } :
        Server.ServerFS).cwd.lookup
          (lstripSlash (Server.requestTarget "/index.html?v=1")) = none)
    ∧ (({ cwd := [("index.html", "x")], root := [("index.html", "x")] } :
        Server.ServerFS).root.lookup
          (lstripSlash (stripQuery (Server.requestTarget "/index.html?v=1"))) = some "x")
    ∧ ((Server.do_GET { cwd := [("index.html", "x")], root := [("index.html", "x")] }
          "/index.html?v=1").status = 404
      ∧ (Server.do_GET { cwd := [("index.html", "x")], root := [("index.html", "x")] }
          "/index.html?v=1").body = "File not found") :=
  ⟨by decide, by decide, by decide,
   query_string_always_404
     { cwd := [("index.html", "x")], root := [("index.html", "x")] }
     "/index.html?v=1" "x" (by decide) (by decide) (by decide)⟩

end Bitshare

namespace Bitshare

/-! ### Claim theorems: startup and shutdown -/

/-- C5: variant B scans exactly the ports 8000 through 8009 in ascending
order; when the scan finds a port it is the first of the range whose
bind succeeds (every port tried before it failed) and the server serves
on it without exiting; when every port of the range fails the script
prints `No available ports found` and exits with status 1; in
particular with 8000 already bound (errno 98) and 8001 free it serves
on 8001. -/
theorem variantB_port_scan (be : Nat → Option Nat) :
    SimpleServer.portRange
      = [8000, 8001, 8002, 8003, 8004, 8005, 8006, 8007, 8008, 8009]
    ∧ (∀ p, SimpleServer.scanPorts be SimpleServer.portRange = some p →
        (SimpleServer.run be false false).servingPort = some p
        ∧ (SimpleServer.run be false false).exitCode = none
        ∧ be p = none
        ∧ ∃ l1 l2, SimpleServer.portRange = l1 ++ p :: l2
            ∧ ∀ q ∈ l1, (be q).isSome)
    ∧ ((∀ q ∈ SimpleServer.portRange, (be q).isSome) →
        (SimpleServer.run be false false).exitCode = some 1
        ∧ "❌ No available ports found" ∈ (SimpleServer.run be false false).output)
    ∧ (be 8000 = some 98 → be 8001 = none →
        (SimpleServer.run be false false).servingPort = some 8001) := by
  refine ⟨by decide, ?_, ?_, ?_⟩
  · intro p hp
    obtain ⟨l1, l2, hl, hb, hf⟩ := scanPorts_decomp be _ p hp
    rw [run_serving be false p hp]
    exact ⟨rfl, rfl, hb, l1, l2, hl, hf⟩
  · intro hall
    rw [run_exhausted be false false hall]
    exact ⟨rfl, by decide⟩
  · intro h0 h1
    have hpr : SimpleServer.portRange
        = 8000 :: 8001 :: [8002, 8003, 8004, 8005, 8006, 8007, 8008, 8009] := by decide
    have hp : SimpleServer.scanPorts be SimpleServer.portRange = some 8001 := by
      rw [hpr]
      unfold SimpleServer.scanPorts
      rw [h0]
      rw [if_neg (by decide : ¬(((some (98 : Nat)).isNone) = true))]
      unfold SimpleServer.scanPorts
      rw [h1]
      exact if_pos rfl
    rw [run_serving be false 8001 hp]

/-- C5 (witness): the scan theorem applied to the environment in which
port 8000 is bound (errno 98) and every other port is free. -/
theorem variantB_port_scan_witness :
    ((fun q : Nat => if q = 8000 then some 98 else none) 8000 = some 98)
    ∧ ((fun q : Nat => if q = 8000 then some 98 else none) 8001 = none)
    ∧ (SimpleServer.run (fun q : Nat => if q = 8000 then some 98 else none)
        false false).servingPort = some 8001 :=
  ⟨by decide, by decide,
   (variantB_port_scan (fun q : Nat => if q = 8000 then some 98 else none)).2.2.2
     (by decide) (by decide)⟩

/-- C6: when the bind of port 8000 fails because the port is already in
use — which server.py identifies, per its own comment, as
`e.errno == 48` — variant A exits with status 1 and one of its printed
diagnostics mentions the port number 8000. -/
theorem variantA_port_in_use_diagnostic (be : Nat → Option Nat) (errStr : String)
    (bf itr : Bool) (h : be 8000 = some 48) :
    (Server.main be errStr bf itr).exitCode = some 1
    ∧ ∃ line ∈ (Server.main be errStr bf itr).output, mentions line "8000" = true := by
  rw [main_port_in_use be errStr bf itr h]
  exact ⟨rfl, "❌ Port 8000 is already in use", by decide, by decide⟩

/-- C6 (witness): the theorem applied to the environment in which every
bind fails with errno 48. -/
theorem variantA_port_in_use_diagnostic_witness :
    ((fun _ : Nat => some 48) 8000 = some (48 : Nat))
    ∧ ((Server.main (fun _ : Nat => some 48) "[Errno 48] Address already in use"
          false false).exitCode = some 1
      ∧ ∃ line ∈ (Server.main (fun _ : Nat => some 48)
          "[Errno 48] Address already in use" false false).output,
          mentions line "8000" = true) :=
  ⟨rfl,
   variantA_port_in_use_diagnostic (fun _ : Nat => some 48)
     "[Errno 48] Address already in use" false false rfl⟩

/-- C7: in both variants an operator interrupt after a successful
startup makes the script print `🛑 Server stopped` and exit with status
0 — server.py catches `KeyboardInterrupt` in `main`, simple-server.py
in its `__main__` wrapper. -/
theorem interrupt_clean_shutdown (be bq : Nat → Option Nat) (errStr : String)
    (bf : Bool) (p : Nat) (hA : be 8000 = none)
    (hB : SimpleServer.scanPorts bq SimpleServer.portRange = some p) :
    (Server.main be errStr bf true).exitCode = some 0
    ∧ "🛑 Server stopped" ∈ (Server.main be errStr bf true).output
    ∧ (SimpleServer.run bq bf true).exitCode = some 0
    ∧ "🛑 Server stopped" ∈ (SimpleServer.run bq bf true).output := by
  rw [main_interrupted be errStr bf hA, run_interrupted bq bf p hB]
  refine ⟨rfl, ?_, rfl, ?_⟩
  · exact List.mem_append.mpr (Or.inr (by decide))
  · exact List.mem_append.mpr (Or.inr (by decide))

/-- C7 (witness): the theorem applied to the environment in which every
bind succeeds and the operator interrupts. -/
theorem interrupt_clean_shutdown_witness :
    ((fun _ : Nat => (none : Option Nat)) 8000 = none)
    ∧ (SimpleServer.scanPorts (fun _ : Nat => (none : Option Nat))
        SimpleServer.portRange = some 8000)
    ∧ ((Server.main (fun _ : Nat => none) "" false true).exitCode = some 0
      ∧ "🛑 Server stopped" ∈ (Server.main (fun _ : Nat => none) "" false true).output
      ∧ (SimpleServer.run (fun _ : Nat => none) false true).exitCode = some 0
      ∧ "🛑 Server stopped" ∈ (SimpleServer.run (fun _ : Nat => none) false true).output) :=
  ⟨rfl, by decide,
   interrupt_clean_shutdown (fun _ : Nat => none) (fun _ : Nat => none) "" false 8000
     rfl (by decide)⟩

/-- C8: a failing browser launch is swallowed in both variants: after a
successful bind with `webbrowser.open` raising, both servers keep
serving (no exit), and a manual-navigation instruction naming the
server URL is among the printed lines — in variant A it is printed by
the `except` handler itself, in variant B the instruction
`📱 Open this URL in your browser` is printed unconditionally and the
handler is `except: pass`. -/
theorem browser_failure_swallowed (be bq : Nat → Option Nat) (errStr : String)
    (p : Nat) (hA : be 8000 = none)
    (hB : SimpleServer.scanPorts bq SimpleServer.portRange = some p) :
    (Server.main be errStr true false).exitCode = none
    ∧ (Server.main be errStr true false).servingPort = some 8000
    ∧ "⚠️  Please manually open http://localhost:8000 in your browser"
        ∈ (Server.main be errStr true false).output
    ∧ (SimpleServer.run bq true false).exitCode = none
    ∧ (SimpleServer.run bq true false).servingPort = some p
    ∧ ("📱 Open this URL in your browser: http://localhost:" ++ toString p)
        ∈ (SimpleServer.run bq true false).output := by
  rw [main_serving be errStr true hA, run_serving bq true p hB]
  refine ⟨rfl, rfl, by decide, rfl, rfl, ?_⟩
  simp [SimpleServer.serveOutput]

/-- C8 (witness): the theorem applied to the environment in which every
bind succeeds and the browser launch fails. -/
theorem browser_failure_swallowed_witness :
    ((fun _ : Nat => (none : Option Nat)) 8000 = none)
    ∧ (SimpleServer.scanPorts (fun _ : Nat => (none : Option Nat))
        SimpleServer.portRange = some 8000)
    ∧ ((Server.main (fun _ : Nat => none) "" true false).exitCode = none
      ∧ (Server.main (fun _ : Nat => none) "" true false).servingPort = some 8000
      ∧ "⚠️  Please manually open http://localhost:8000 in your browser"
          ∈ (Server.main (fun _ : Nat => none) "" true false).output
      ∧ (SimpleServer.run (fun _ : Nat => none) true false).exitCode = none
      ∧ (SimpleServer.run (fun _ : Nat => none) true false).servingPort = some 8000
      ∧ ("📱 Open this URL in your browser: http://localhost:" ++ toString 8000)
          ∈ (SimpleServer.run (fun _ : Nat => none) true false).output) :=
  ⟨rfl, by decide,
   browser_failure_swallowed (fun _ : Nat => none) (fun _ : Nat => none) "" 8000
     rfl (by decide)⟩

/-- C9 (counterexample): the claim fails for variant B.  With port 8000
failing to bind with errno 13 (`EACCES`, not a port-in-use error) and
port 8001 free, simple-server.py does not exit at all: its
`except OSError: continue` treats every bind error as recoverable and
the server ends up serving on 8001. -/
theorem variantB_recovers_from_non_inuse_bind_error :
    (SimpleServer.run (fun q : Nat => if q = 8000 then some 13 else none)
        false false).exitCode = none
    ∧ (SimpleServer.run (fun q : Nat => if q = 8000 then some 13 else none)
        false false).servingPort = some 8001 := by
  exact ⟨by decide, by decide⟩

/-- C9 (amended): in variant A a bind error with an errno other than 48
is fatal — the script prints `Error starting server:` followed by the
underlying error text and exits with status 1; in variant B every
`OSError` on bind, whatever its errno, makes the loop try the next
port, and only when all ten candidate ports fail does the script exit
with status 1, printing only `No available ports found` with no
underlying error detail. -/
theorem bind_error_fatality (be : Nat → Option Nat) (errStr : String)
    (bf itr : Bool) (e : Nat) :
    (be 8000 = some e → e ≠ 48 →
      (Server.main be errStr bf itr).exitCode = some 1
      ∧ ("❌ Error starting server: " ++ errStr)
          ∈ (Server.main be errStr bf itr).output)
    ∧ ((∀ q ∈ SimpleServer.portRange, (be q).isSome) →
      (SimpleServer.run be bf itr).exitCode = some 1
      ∧ (SimpleServer.run be bf itr).output = ["❌ No available ports found"]) := by
  constructor
  · intro h hne
    rw [main_bind_failed_other be errStr bf itr e h hne]
    exact ⟨rfl, List.mem_cons.mpr (Or.inl rfl)⟩
  · intro hall
    rw [run_exhausted be bf itr hall]
    exact ⟨rfl, rfl⟩

/-- C9 (witness): the amended theorem applied to the environment in
which every bind fails with errno 13 (`EACCES`). -/
theorem bind_error_fatality_witness :
    ((fun _ : Nat => some 13) 8000 = some (13 : Nat))
    ∧ ((13 : Nat) ≠ 48)
    ∧ ((Server.main (fun _ : Nat => some 13) "[Errno 13] Permission denied"
          false false).exitCode = some 1
      ∧ ("❌ Error starting server: " ++ "[Errno 13] Permission denied")
          ∈ (Server.main (fun _ : Nat => some 13) "[Errno 13] Permission denied"
              false false).output)
    ∧ ((SimpleServer.run (fun _ : Nat => some 13) false false).exitCode = some 1
      ∧ (SimpleServer.run (fun _ : Nat => some 13) false false).output
          = ["❌ No available ports found"]) :=
  ⟨rfl, by decide,
   (bind_error_fatality (fun _ : Nat => some 13) "[Errno 13] Permission denied"
      false false 13).1 rfl (by decide),
   (bind_error_fatality (fun _ : Nat => some 13) "[Errno 13] Permission denied"
      false false 13).2 (by decide)⟩

end Bitshare
